import Mathlib

/-!
Verification of the snap-polarimetric processing block
(`src/snap_polarimetry.py`) against its natural-language specification.

The Python module is shallowly embedded: pure helpers become Lean
functions; latitude/longitude floats become rationals (only order
comparisons and min/max are performed on them, so this is exact);
raised exceptions become `Option`/`Except` error values; file-system
and subprocess side effects are abstracted into explicit parameters
(an `Engine` record per feature) and return values (invocation logs).
-/

namespace SnapPolarimetry

/-- Decidable equality of `Except` results, so that concrete runs of
the embedded functions can be checked by `decide`. -/
instance {ε α : Type} [DecidableEq ε] [DecidableEq α] : DecidableEq (Except ε α) := fun a b =>
  match a, b with
  | .error e1, .error e2 =>
    match decEq e1 e2 with
    | isTrue h => isTrue (congrArg Except.error h)
    | isFalse h => isFalse fun hc => h (Except.error.inj hc)
  | .ok v1, .ok v2 =>
    match decEq v1 v2 with
    | isTrue h => isTrue (congrArg Except.ok h)
    | isFalse h => isFalse fun hc => h (Except.ok.inj hc)
  | .error _, .ok _ => isFalse fun hc => Except.noConfusion hc
  | .ok _, .error _ => isFalse fun hc => Except.noConfusion hc

/-! ## DEM selection (`extract_relevant_coordinate`, `replace_dem`, `assert_dem`) -/

/-- The digital elevation model currently configured in the shared
graph template (`Terrain-Correction` node, second parameter). -/
inductive Dem where
  | srtm
  | aster
deriving DecidableEq, Repr

/-- Embedding of `SNAPPolarimetry.extract_relevant_coordinate`.

The Python body is:
```
if coor[1] and coor[3] < 0: relevant_coor = min(coor[1], coor[3])
if coor[1] and coor[3] > 0: relevant_coor = max(coor[1], coor[3])
return relevant_coor
```
`coor[1] and coor[3] < 0` parses as `(coor[1]) and (coor[3] < 0)`, i.e.
truthiness of `coor[1]` (nonzero float) conjoined with the comparison on
`coor[3]` alone.  When neither condition holds, `relevant_coor` is never
bound and the `return` raises `UnboundLocalError`; an out-of-range index
raises `IndexError`.  Both raised exceptions are modelled as `none`. -/
def extract_relevant_coordinate (coor : List ℚ) : Option ℚ :=
  match coor[1]?, coor[3]? with
  | some c1, some c3 =>
    if c1 ≠ 0 ∧ c3 < 0 then some (min c1 c3)
    else if c1 ≠ 0 ∧ 0 < c3 then some (max c1 c3)
    else none
  | _, _ => none

/-- Embedding of `SNAPPolarimetry.replace_dem`: rewrites the
`Terrain-Correction` node's DEM parameter of the shared template to
`"ASTER 1sec GDEM"`, unconditionally. -/
def replace_dem (_ : Dem) : Dem := Dem.aster

/-- Embedding of `SNAPPolarimetry.assert_dem`: extracts the relevant
latitude (propagating its possible crash) and swaps the template DEM
when `not -56.0 < r_c < 60.0`, i.e. when the latitude lies outside the
open interval `(-56, 60)`. -/
def assert_dem (coor : List ℚ) (dem : Dem) : Option Dem :=
  match extract_relevant_coordinate coor with
  | none => none
  | some rc => if ¬((-56 : ℚ) < rc ∧ rc < 60) then some (replace_dem dem) else some dem

/-! ## Polarisation validation (`validate_polarisations`) -/

/-- Embedding of `SNAPPolarimetry.validate_polarisations`: a fold of
`available and (pol in avail_polarisations)` over the requested list,
starting from `True`. -/
def validate_polarisations (req_polarisations avail_polarisations : List String) : Bool :=
  List.foldl (fun available pol => available && avail_polarisations.contains pol) true
    req_polarisations

/-! ## Job-graph node pruning (`revise_graph_xml`)

The graph XML is a sequence of `node` elements, each with an `id`
attribute and a `sources` block whose children carry `refid`
attributes.  A node is modelled by its id and the list of its source
`refid`s.  The ElementTree loop is modelled positionally: the
`all_nodes` snapshot keeps every element (with its current, possibly
mutated attributes) at its original index, while a removal flag records
whether `root.remove` has dropped it from the tree. -/

/-- One `node` element of the job graph: its `id` attribute and the
`refid` attributes of the children of its `sources` block. -/
structure Node where
  id : String
  sources : List String
deriving DecidableEq, Repr

/-- The `all_nodes` snapshot: each original element together with a
flag marking whether it has been removed from the tree. -/
abbrev GraphState := List (Node × Bool)

/-- One iteration of the loop in `SNAPPolarimetry.revise_graph_xml` at
index `i`.  On a match it removes the element from the tree, looks up
`all_nodes[index + 1]` (raising `IndexError`, modelled `none`, past the
end), takes that element's first source child (`params[0]`, raising if
the `sources` block is absent or empty), and overwrites its `refid`
with `all_nodes[index - 1]`'s id — where Python's `-1` at `index = 0`
wraps around to the **last** element. -/
def reviseStep (key : String) (st : GraphState) (i : Nat) : Option GraphState :=
  match st[i]? with
  | none => some st
  | some (nd, _) =>
    if nd.id = key then
      match st[i + 1]? with
      | none => none
      | some (next, nrem) =>
        match next.sources with
        | [] => none
        | _ :: rs =>
          match st[if i = 0 then st.length - 1 else i - 1]? with
          | none => none
          | some (prev, _) =>
            some ((st.set i (nd, true)).set (i + 1) (⟨next.id, prev.id :: rs⟩, nrem))
    else some st

/-- The `for index, _ in enumerate(all_nodes)` loop: `fuel` iterations
starting at index `i`. -/
def reviseFrom (key : String) : Nat → Nat → GraphState → Option GraphState
  | 0, _, st => some st
  | fuel + 1, i, st =>
    match reviseStep key st i with
    | none => none
    | some st' => reviseFrom key fuel (i + 1) st'

/-- Embedding of `SNAPPolarimetry.revise_graph_xml`: runs the loop over
all original indices and returns the surviving nodes, in document
order, with their final attributes.  `none` models a raised exception
(`IndexError`/`TypeError`); note that no branch reports a missing key. -/
def revise_graph_xml (g : List Node) (key : String) : Option (List Node) :=
  match reviseFrom key g.length 0 (g.map fun n => (n, false)) with
  | none => none
  | some st => some ((st.filter fun pr => !pr.2).map Prod.fst)

/-! ## Raster stack assembly (`read_write_bigtiff`) -/

/-- A pixel of a single-band float raster: a finite value, or one of
the three non-finite IEEE values. -/
inductive Pixel where
  | finiteVal (v : ℚ)
  | nan
  | posinf
  | neginf
deriving DecidableEq, Repr

/-- The largest finite value of the raster's float dtype
(`np.finfo.max`): for float32 this is `(2 - 2 ^ (-23)) * 2 ^ 127 =
(2 ^ 24 - 1) * 2 ^ 104`, written out as a literal. -/
def floatMax : ℚ := 340282346638528859811704183484516925440

/-- Semantics of `np.nan_to_num(src_data, copy=False)` with default
arguments, per numpy's documentation: NaN is replaced by zero, and
(negative) infinity by the (most negative) largest finite value of the
dtype — infinities are *not* replaced by zero. -/
def nan_to_num : Pixel → Pixel
  | .nan => .finiteVal 0
  | .posinf => .finiteVal floatMax
  | .neginf => .finiteVal (-floatMax)
  | .finiteVal v => .finiteVal v

/-- One band of the output stack: its band description and pixel data. -/
structure Band where
  description : String
  pixels : List Pixel
deriving DecidableEq, Repr

/-- Embedding of `SNAPPolarimetry.read_write_bigtiff`.  `tiles` maps a
polarisation name to the pixels of its single-band source tile
(`{out_path}{layer}.tif`).  The method opens `pol[0]` for the profile
(an `IndexError` on an empty list, modelled `none`), creates an output
with `count = len(pol)` bands, and for each `layer` in order copies the
tile's windows through `np.nan_to_num` into band `b_id + 1`, setting
that band's description to `layer`.  Windowed I/O is modelled by
mapping over the flat pixel list, which the block windows cover. -/
def read_write_bigtiff (tiles : String → List Pixel) (pol : List String) :
    Option (List Band) :=
  match pol with
  | [] => none
  | _ :: _ => some (pol.map fun layer => ⟨layer, (tiles layer).map nan_to_num⟩)

/-! ## Configuration validation (`assert_input_params`) -/

/-- The processing configuration, restricted to the fields this module
reads.  `polarisations`, `bbox`, `contains` and `intersects` are `none`
when the corresponding query parameter is `null`/absent.  `contains`
and `intersects` hold opaque geometry payloads; a present geometry is a
non-empty mapping in Python and hence truthy. -/
structure Config where
  clip_to_aoi : Bool
  mask : Option String
  polarisations : Option (List String)
  bbox : Option (List ℚ)
  contains : Option String
  intersects : Option String
deriving DecidableEq, Repr

/-- The two `UP42Error` kinds raised by this module (the message
strings are elided). -/
inductive UP42Error where
  | wrongInput
  | noOutput
deriving DecidableEq, Repr

/-- Python truthiness of the `bbox` parameter: `None` and the empty
list are falsy, a non-empty list is truthy. -/
def bboxTruthy : Option (List ℚ) → Bool
  | none => false
  | some l => !l.isEmpty

/-- Embedding of `SNAPPolarimetry.assert_input_params`: with
`clip_to_aoi` false it raises `WRONG_INPUT_ERROR` when any of `bbox`,
`contains`, `intersects` is truthy; with `clip_to_aoi` true it raises
only when all three are `None`. -/
def assert_input_params (cfg : Config) : Except UP42Error Unit :=
  if !cfg.clip_to_aoi then
    if bboxTruthy cfg.bbox || cfg.contains.isSome || cfg.intersects.isSome then
      .error .wrongInput
    else .ok ()
  else
    if cfg.bbox.isNone && cfg.contains.isNone && cfg.intersects.isNone then
      .error .wrongInput
    else .ok ()

/-! ## Engine driving and per-feature orchestration
(`process_snap`, `process`)

File-system and subprocess effects are abstracted: per feature, an
`Engine` record supplies what the real run would observe — the
polarisations present in the scene archive's measurement folder, the
`os.system` return value of the `gpt` command per polarisation, and
whether the clipped output tile is empty.  Each call also returns the
ordered log of polarisations for which the engine was invoked, so that
"nothing further was processed" is expressible. -/

/-- An input feature: its `bbox` (lon-min, lat-min, lon-max, lat-max)
and its `up42.data_path` property. -/
structure Feature where
  bbox : List ℚ
  dataPath : String
deriving DecidableEq, Repr

/-- The per-feature external environment of `process_snap`. -/
structure Engine where
  avail : List String
  run : String → Nat
  isEmptyTile : String → Bool

/-- The two ways `process_snap` aborts: the `WrongPolarizationError` it
raises, and the `sys.exit(return_value)` on a non-zero engine status. -/
inductive SnapError where
  | wrongPolarization
  | systemExit (code : Nat)
deriving DecidableEq, Repr

/-- The `for polarisation in requested_pols` loop of `process_snap`:
returns the invocation log and either the `sys.exit` code (the first
non-zero `os.system` return value) or the collected output tiles, with
empty clipped tiles dropped.  Tiles are identified by their
polarisation (the real path is `/tmp/input/<stem>_<pol>`). -/
def runPols (eng : Engine) (clip : Bool) :
    List String → List String × Except Nat (List String)
  | [] => ([], .ok [])
  | p :: ps =>
    let rv := eng.run p
    if rv ≠ 0 then ([p], .error rv)
    else
      let rest := runPols eng clip ps
      (p :: rest.1,
       match rest.2 with
       | .error c => .error c
       | .ok fs => .ok (if clip && eng.isEmptyTile p then fs else p :: fs))

/-- Embedding of `SNAPPolarimetry.process_snap`: validates the
requested polarisations against the available ones (raising
`WrongPolarizationError` before any engine invocation), then runs the
engine per polarisation in request order. -/
def process_snap (eng : Engine) (clip : Bool) (req : List String) :
    List String × Except SnapError (List String) :=
  if validate_polarisations req eng.avail then
    let r := runPols eng clip req
    (r.1, match r.2 with
          | .error c => .error (.systemExit c)
          | .ok fs => .ok fs)
  else ([], .error .wrongPolarization)

/-- Whether a `process_snap` result is the fatal `sys.exit` outcome. -/
def isSystemExit : Except SnapError (List String) → Bool
  | .error (.systemExit _) => true
  | _ => false

/-- The `self.params.polarisations or ["VV"]` default at the top of
`process`: Python's `or` substitutes `["VV"]` for any falsy value
(`None` or the empty list). -/
def effectivePolarisations : Option (List String) → List String
  | none => ["VV"]
  | some [] => ["VV"]
  | some (p :: ps) => p :: ps

/-- The output feature built for a successful input feature: a deep
copy whose internal `up42.data_path` property is removed and whose
public data path is set to `<scene_id>.tif` (`set_data_path`). -/
def outFeature (f : Feature) : Feature := ⟨f.bbox, f.dataPath ++ ".tif"⟩

/-- Modelled from the spec: `update_extents` (external
`blockutils.common`, not under `src/`) recomputes each output feature's
bounding geometry from its raster footprint when clipping was
requested.  The raster I/O is not representable here; the collection's
membership and order are preserved, so it is modelled as the identity
on the feature list. -/
def update_extents (fs : List Feature) : List Feature := fs

/-- How a whole run of `process` aborts: an `UP42Error` from
`assert_input_params` (`invalidConfig`) or the final no-output check
(`noOutput`), the `UnboundLocalError` escaping `assert_dem`
(`nameError`), or the uncaught `SystemExit` from `process_snap`. -/
inductive RunError where
  | invalidConfig
  | nameError
  | systemExit (code : Nat)
  | noOutput
deriving DecidableEq, Repr

/-- The `for in_feature in input_fc.get("features")` loop of
`SNAPPolarimetry.process`: per feature it runs `assert_dem` on the
feature's bbox (threading the mutated template DEM, and propagating the
possible crash), then `process_snap`; `WrongPolarizationError` and an
empty tile list skip the feature, a `SystemExit` propagates
immediately, and a non-empty tile list contributes one output feature.
Returns the per-feature engine invocation logs and the collected
output features. -/
def processFeatures (clip : Bool) (env : Feature → Engine) (pols : List String) :
    List Feature → Dem → List (String × List String) × Except RunError (List Feature)
  | [], _ => ([], .ok [])
  | f :: fs, dem =>
    match assert_dem f.bbox dem with
    | none => ([], .error .nameError)
    | some dem' =>
      let snap := process_snap (env f) clip pols
      match snap.2 with
      | .error .wrongPolarization =>
        let rest := processFeatures clip env pols fs dem'
        ((f.dataPath, snap.1) :: rest.1, rest.2)
      | .error (.systemExit c) => ([(f.dataPath, snap.1)], .error (.systemExit c))
      | .ok [] =>
        let rest := processFeatures clip env pols fs dem'
        ((f.dataPath, snap.1) :: rest.1, rest.2)
      | .ok (_ :: _) =>
        let rest := processFeatures clip env pols fs dem'
        ((f.dataPath, snap.1) :: rest.1,
         match rest.2 with
         | .error e => .error e
         | .ok outs => .ok (outFeature f :: outs))

/-- Embedding of `SNAPPolarimetry.process`: resolves the polarisation
default, validates the configuration, processes every feature, raises
`NO_OUTPUT_ERROR` when no feature produced output, and applies
`update_extents` to the result collection when clipping was
requested. -/
def process (cfg : Config) (env : Feature → Engine) (fc : List Feature) :
    List (String × List String) × Except RunError (List Feature) :=
  match assert_input_params cfg with
  | .error _ => ([], .error .invalidConfig)
  | .ok _ =>
    let pols := effectivePolarisations cfg.polarisations
    let r := processFeatures cfg.clip_to_aoi env pols fc Dem.srtm
    match r.2 with
    | .error e => (r.1, .error e)
    | .ok [] => (r.1, .error .noOutput)
    | .ok (x :: xs) =>
      (r.1, .ok (if cfg.clip_to_aoi then update_extents (x :: xs) else x :: xs))

/-- Whether `process_snap` would contribute an output feature for an
engine environment: success with a non-empty tile list. -/
def featHasOutput (eng : Engine) (clip : Bool) (pols : List String) : Bool :=
  match (process_snap eng clip pols).2 with
  | .ok (_ :: _) => true
  | _ => false

/-- Replace only the `polarisations` field of a configuration. -/
def setPolarisations (cfg : Config) (p : Option (List String)) : Config :=
  ⟨cfg.clip_to_aoi, cfg.mask, p, cfg.bbox, cfg.contains, cfg.intersects⟩

/-! ## Concrete fixtures used by witness and counterexample theorems -/

/-- A scene whose archive offers no polarisations at all. -/
def engNone : Engine := ⟨[], fun _ => 0, fun _ => false⟩

/-- A scene offering `VV`, with a clean engine run. -/
def engVV : Engine := ⟨["VV"], fun _ => 0, fun _ => false⟩

/-- A scene offering `VV` and `VH`, whose engine run fails with status
5 on `VH`. -/
def engFail : Engine := ⟨["VV", "VH"], fun p => if p = "VH" then 5 else 0, fun _ => false⟩

/-- A feature whose bbox lies fully in the northern hemisphere. -/
def featA : Feature := ⟨[0, 10, 5, 20], "sceneA"⟩

/-- A second such feature. -/
def featB : Feature := ⟨[0, 10, 5, 20], "sceneB"⟩

/-- An environment where `sceneA` has no polarisations and every other
scene offers `VV`. -/
def envAB : Feature → Engine := fun f => if f.dataPath = "sceneA" then engNone else engVV

/-- A minimal valid configuration requesting `["VV"]`. -/
def cfgVV : Config := ⟨false, none, some ["VV"], none, none, none⟩

/-- A valid configuration requesting `["VV", "VH"]`. -/
def cfgVVVH : Config := ⟨false, none, some ["VV", "VH"], none, none, none⟩

/-- A configuration with `clip_to_aoi` true and two spatial filters
set at once. -/
def cfgTwoFilters : Config := ⟨true, none, none, some [1, 2, 3, 4], some "POLYGON", none⟩

/-- A configuration whose `polarisations` parameter is `null`. -/
def cfgNullPols : Config := ⟨false, none, none, none, none, none⟩

/-! ## Theorems -/

/-- The fold inside `validate_polarisations` computes the conjunction
of the membership tests, for any starting accumulator. -/
theorem validate_foldl_eq (avail : List String) (req : List String) (b : Bool) :
    List.foldl (fun available pol => available && avail.contains pol) b req
      = (b && req.all fun pol => avail.contains pol) := by
  induction req generalizing b with
  | nil => simp
  | cons p ps ih => rw [List.foldl_cons, ih, List.all_cons, Bool.and_assoc]

/-- C9 (confirmed): `validate_polarisations requested available`
returns `true` exactly when every requested polarisation is contained
in the available list — it equals the conjunction of the membership
tests, hence is `false` as soon as any requested element is missing,
in particular for any non-empty request against an empty availability
list. -/
theorem validate_polarisations_correct (req avail : List String) :
    validate_polarisations req avail = req.all fun pol => avail.contains pol := by
  simpa [validate_polarisations] using validate_foldl_eq avail req true

/-- C1 counterexample: for the bbox `[10, -55, 20, -56]` the relevant
latitude is exactly `-56`, which the claim places inside the covered
range (default model retained), yet `assert_dem` swaps in the alternate
ASTER model because the code tests the open interval `-56 < r_c < 60`. -/
theorem assert_dem_boundary_counterexample :
    extract_relevant_coordinate [10, -55, 20, -56] = some (-56) ∧
      assert_dem [10, -55, 20, -56] Dem.srtm = some Dem.aster := by
  decide

/-- C1 (amended): whenever the relevant latitude is defined,
`assert_dem` swaps the template to the alternate (ASTER-class) DEM iff
that latitude lies outside the **open** interval `(-56, 60)`: latitude
61 selects the alternate model, but so does exactly `-56` (and exactly
`60`), since the boundary is excluded from coverage. -/
theorem assert_dem_open_interval (coor : List ℚ) (r : ℚ)
    (h : extract_relevant_coordinate coor = some r) :
    assert_dem coor Dem.srtm
      = some (if r ≤ -56 ∨ 60 ≤ r then Dem.aster else Dem.srtm) := by
  simp only [assert_dem, h, replace_dem]
  split_ifs with h1 h2 h3
  · exfalso; rcases h2 with h | h <;> linarith [h1.1, h1.2]
  · rfl
  · rfl
  · exfalso; push_neg at h3; exact h1 h3

/-- C1 witness: a bbox with relevant latitude 61 selects the alternate
DEM. -/
theorem assert_dem_open_interval_witness :
    assert_dem [10, 30, 20, 61] Dem.srtm = some Dem.aster := by
  have h := assert_dem_open_interval [10, 30, 20, 61] 61 (by decide)
  exact h.trans (by decide)

/-- C3 counterexample: the bbox `[10, 0, 20, 5]` has a latitude bound
equal to zero, a case the claim covers, yet `extract_relevant_coordinate`
crashes: `coor[1]` is falsy so neither branch binds `relevant_coor` and
the return raises `UnboundLocalError` (modelled as `none`). -/
theorem extract_relevant_coordinate_zero_counterexample :
    extract_relevant_coordinate [10, 0, 20, 5] = none := by decide

/-- C3 (amended): for a bbox whose two latitude bounds strictly
straddle zero (one strictly negative, the other strictly positive)
`extract_relevant_coordinate` returns without crashing — it yields
`coor[3]` in both orientations; but when a latitude bound is exactly
zero the code raises `UnboundLocalError` instead of returning. -/
theorem extract_relevant_coordinate_straddle (c0 c1 c2 c3 : ℚ)
    (h : (c1 < 0 ∧ 0 < c3) ∨ (c3 < 0 ∧ 0 < c1)) :
    extract_relevant_coordinate [c0, c1, c2, c3] = some c3 := by
  rcases h with ⟨h1, h3⟩ | ⟨h3, h1⟩
  · have hne : c1 ≠ 0 := ne_of_lt h1
    have hnot : ¬(c1 ≠ 0 ∧ c3 < 0) := fun hc => absurd h3 (not_lt.mpr (le_of_lt hc.2))
    simp only [extract_relevant_coordinate, List.getElem?_cons_succ, List.getElem?_cons_zero]
    rw [if_neg hnot, if_pos ⟨hne, h3⟩, max_eq_right (le_of_lt (lt_trans h1 h3))]
  · have hne : c1 ≠ 0 := ne_of_gt h1
    simp only [extract_relevant_coordinate, List.getElem?_cons_succ, List.getElem?_cons_zero]
    rw [if_pos ⟨hne, h3⟩, min_eq_right (le_of_lt (lt_trans h3 h1))]

/-- C3 witness: a strictly straddling bbox returns its upper latitude
bound without crashing. -/
theorem extract_relevant_coordinate_straddle_witness :
    extract_relevant_coordinate [10, -5, 20, 8] = some 8 :=
  extract_relevant_coordinate_straddle 10 (-5) 20 8 (Or.inl (by norm_num))

/-- C4 counterexample: a configuration with `clip_to_aoi = true` and
two spatial filters set at once (`bbox` and `contains`) is accepted by
`assert_input_params`, although the claim demands a raise unless
exactly one filter is set. -/
theorem assert_input_params_two_filters_counterexample :
    assert_input_params cfgTwoFilters = .ok () ∧ cfgTwoFilters.clip_to_aoi = true ∧
      cfgTwoFilters.bbox.isSome = true ∧ cfgTwoFilters.contains.isSome = true := by
  decide

/-- C4 (amended): `assert_input_params` raises `WRONG_INPUT_ERROR`
exactly when either `clip_to_aoi` is false and some spatial filter is
truthy, or `clip_to_aoi` is true and **no** spatial filter is set at
all — with clipping enabled, at least one (not exactly one) filter is
required, and any surplus filters are accepted. -/
theorem assert_input_params_iff (cfg : Config) :
    assert_input_params cfg = Except.error UP42Error.wrongInput ↔
      ((cfg.clip_to_aoi = false ∧
          (bboxTruthy cfg.bbox || cfg.contains.isSome || cfg.intersects.isSome) = true) ∨
        (cfg.clip_to_aoi = true ∧ cfg.bbox = none ∧ cfg.contains = none ∧
          cfg.intersects = none)) := by
  unfold assert_input_params
  cases hc : cfg.clip_to_aoi <;>
    split_ifs with h <;>
    simp_all [Option.isNone_iff_eq_none]

/-- C7 counterexample: a source tile holding a single `+inf` pixel is
assembled into a stack whose pixel is the largest finite float value,
not `0` — `np.nan_to_num` only zeroes NaN. -/
theorem read_write_bigtiff_posinf_counterexample :
    read_write_bigtiff (fun _ => [Pixel.posinf]) ["VV"]
        = some [⟨"VV", [Pixel.finiteVal floatMax]⟩] ∧
      Pixel.finiteVal floatMax ≠ Pixel.finiteVal 0 := by
  decide

/-- C7 (amended): for every non-empty ordered request list, stack
assembly produces one output whose bands are, in request order, the
source tiles passed through `np.nan_to_num` and tagged with their
polarisation names; the band count equals the number of tiles, and
NaN source pixels become 0 while infinite pixels become the extreme
finite values (not 0). -/
theorem read_write_bigtiff_stack (tiles : String → List Pixel) (pol : List String)
    (h : pol ≠ []) :
    read_write_bigtiff tiles pol
        = some (pol.map fun layer => ⟨layer, (tiles layer).map nan_to_num⟩) ∧
      (pol.map fun layer => (⟨layer, (tiles layer).map nan_to_num⟩ : Band)).length
          = pol.length ∧
      ((pol.map fun layer => (⟨layer, (tiles layer).map nan_to_num⟩ : Band)).map
          Band.description) = pol := by
  refine ⟨?_, by simp, ?_⟩
  · cases pol with
    | nil => exact absurd rfl h
    | cons p ps => rfl
  · have hcomp : (Band.description ∘ fun layer =>
        (⟨layer, (tiles layer).map nan_to_num⟩ : Band)) = id := rfl
    simp [List.map_map, hcomp]

/-- C7 witness: two NaN-bearing tiles for `["VV", "VH"]` assemble into
a two-band stack, in order, with both NaN pixels zeroed. -/
theorem read_write_bigtiff_stack_witness :
    read_write_bigtiff (fun _ => [Pixel.nan]) ["VV", "VH"]
      = some [⟨"VV", [Pixel.finiteVal 0]⟩, ⟨"VH", [Pixel.finiteVal 0]⟩] := by
  have h := read_write_bigtiff_stack (fun _ => [Pixel.nan]) ["VV", "VH"] (by decide)
  exact h.1.trans (by decide)

/-- Setting an element past an appended prefix sets it in the suffix. -/
theorem set_append_add (l1 l2 : GraphState) (k : Nat) (a : Node × Bool) :
    (l1 ++ l2).set (l1.length + k) a = l1 ++ l2.set k a := by
  induction l1 with
  | nil => simp
  | cons x xs ih => simp [Nat.succ_add, ih]

/-- A loop iteration at an index whose element does not match the key
leaves the state unchanged. -/
theorem reviseStep_skip (key : String) (st : GraphState) (i : Nat)
    (h : ∀ nd rem, st[i]? = some (nd, rem) → nd.id ≠ key) :
    reviseStep key st i = some st := by
  unfold reviseStep
  cases hst : st[i]? with
  | none => rfl
  | some pr => exact if_neg (h pr.1 pr.2 (by simpa using hst))

/-- A run of loop iterations over indices none of which matches the
key leaves the state unchanged. -/
theorem reviseFrom_skip_lt (key : String) (fuel : Nat) :
    ∀ (i : Nat) (st : GraphState),
      (∀ j nd rem, i ≤ j → j < i + fuel → st[j]? = some (nd, rem) → nd.id ≠ key) →
      reviseFrom key fuel i st = some st := by
  induction fuel with
  | zero => intro i st _; rfl
  | succ n ih =>
    intro i st h
    unfold reviseFrom
    rw [reviseStep_skip key st i fun nd rem hst => h i nd rem le_rfl (by omega) hst]
    exact ih (i + 1) st fun j nd rem hj hb hst => h j nd rem (by omega) (by omega) hst

/-- Splitting a run of loop iterations into two consecutive runs. -/
theorem reviseFrom_add (key : String) (f1 f2 : Nat) :
    ∀ (i : Nat) (st : GraphState),
      reviseFrom key (f1 + f2) i st
        = (reviseFrom key f1 i st).bind fun st' => reviseFrom key f2 (i + f1) st' := by
  induction f1 with
  | zero => intro i st; simp [reviseFrom]
  | succ n ih =>
    intro i st
    have hval : n + 1 + f2 = (n + f2) + 1 := by omega
    rw [hval]
    show (match reviseStep key st i with
          | none => none
          | some st' => reviseFrom key (n + f2) (i + 1) st')
        = (match reviseStep key st i with
           | none => none
           | some st' => reviseFrom key n (i + 1) st').bind
            fun st' => reviseFrom key f2 (i + (n + 1)) st'
    cases reviseStep key st i with
    | none => rfl
    | some st' =>
      have hidx : i + 1 + n = i + (n + 1) := by omega
      simpa [hidx] using ih (i + 1) st'

/-- Unfolding one loop iteration of a non-empty run. -/
theorem reviseFrom_succ (key : String) (fuel i : Nat) (st st' : GraphState)
    (h : reviseStep key st i = some st') :
    reviseFrom key (fuel + 1) i st = reviseFrom key fuel (i + 1) st' := by
  show (match reviseStep key st i with
        | none => none
        | some st2 => reviseFrom key fuel (i + 1) st2)
      = reviseFrom key fuel (i + 1) st'
  rw [h]

/-- A run confined to a key-free prefix leaves the state unchanged. -/
theorem reviseFrom_skip_prefix (key : String) (pre suf : GraphState)
    (h : ∀ pr ∈ pre, pr.1.id ≠ key) :
    reviseFrom key pre.length 0 (pre ++ suf) = some (pre ++ suf) := by
  apply reviseFrom_skip_lt
  intro j nd rem hj hb hst
  rw [List.getElem?_append_left (by omega)] at hst
  exact h (nd, rem) (List.getElem?_mem hst)

/-- A run starting past a prefix leaves the state unchanged when the
whole suffix is key-free. -/
theorem reviseFrom_skip_suffix (key : String) (fuel : Nat) (pre suf : GraphState)
    (h : ∀ pr ∈ suf, pr.1.id ≠ key) :
    reviseFrom key fuel pre.length (pre ++ suf) = some (pre ++ suf) := by
  apply reviseFrom_skip_lt
  intro j nd rem hj hb hst
  rw [List.getElem?_append_right (by omega)] at hst
  exact h (nd, rem) (List.getElem?_mem hst)

/-- Filtering out removed elements keeps a freshly loaded state. -/
theorem filter_flags (l : List Node) :
    ((l.map fun n => (n, false)).filter fun pr => !pr.2) = l.map fun n => (n, false) := by
  induction l with
  | nil => rfl
  | cons n ns ih => simp [ih]

/-- Projecting a freshly loaded state back to its nodes. -/
theorem map_fst_flags (l : List Node) :
    ((l.map fun n => (n, false)).map Prod.fst) = l := by
  induction l with
  | nil => rfl
  | cons n ns ih => simp [ih]

/-- C6 (amended): pruning with a node id that occurs nowhere in the
graph silently leaves the graph unchanged and raises nothing — the
loop body never fires and the tree is written back as-is; no
`NodeNotFoundError` exists anywhere in the code. -/
theorem revise_graph_xml_missing (g : List Node) (key : String)
    (h : ∀ n ∈ g, n.id ≠ key) :
    revise_graph_xml g key = some g := by
  unfold revise_graph_xml
  rw [reviseFrom_skip_lt key g.length 0 (g.map fun n => (n, false)) ?_]
  · show some (((g.map fun n => (n, false)).filter fun pr => !pr.2).map Prod.fst) = some g
    rw [filter_flags, map_fst_flags]
  · intro j nd rem _ _ hst
    obtain ⟨n', hn', heq⟩ := List.mem_map.mp (List.getElem?_mem hst)
    have hnd : n' = nd := congrArg Prod.fst heq
    rw [← hnd]
    exact h n' hn'



/-- The loop iteration that fires at the matched node: with the match
at position `A.length + 1`, the node is flagged removed and the
following node's first source `refid` is overwritten with the
preceding node's id. -/
theorem reviseStep_mid (A : List Node) (p t c : Node) (B : List Node)
    (r : String) (rs : List String) (hsrc : c.sources = r :: rs) :
    reviseStep t.id ((A.map fun n => (n, false)) ++ (p, false) :: (t, false) :: (c, false)
        :: (B.map fun n => (n, false))) (A.length + 1)
      = some ((A.map fun n => (n, false)) ++ (p, false) :: (t, true)
          :: (⟨c.id, p.id :: rs⟩, false) :: (B.map fun n => (n, false))) := by
  have e1 : ((A.map fun n => (n, false)) ++ (p, false) :: (t, false) :: (c, false)
      :: (B.map fun n => (n, false)))[A.length + 1]? = some (t, false) := by
    rw [List.getElem?_append_right (by rw [List.length_map]; omega)]
    simp
  have e2 : ((A.map fun n => (n, false)) ++ (p, false) :: (t, false) :: (c, false)
      :: (B.map fun n => (n, false)))[A.length + 1 + 1]? = some (c, false) := by
    rw [List.getElem?_append_right (by rw [List.length_map]; omega)]
    rw [List.length_map]
    have hx : A.length + 1 + 1 - A.length = 2 := by omega
    rw [hx]
    simp
  have e0 : ((A.map fun n => (n, false)) ++ (p, false) :: (t, false) :: (c, false)
      :: (B.map fun n => (n, false)))[A.length]? = some (p, false) := by
    rw [List.getElem?_append_right (by rw [List.length_map])]
    simp
  unfold reviseStep
  simp only [e1, e2, hsrc, if_true, Nat.succ_ne_zero, if_false, Nat.add_sub_cancel, e0]
  congr 1
  have hs1 : ((A.map fun n => (n, false)) ++ (p, false) :: (t, false) :: (c, false)
      :: (B.map fun n => (n, false))).set (A.length + 1) (t, true)
      = (A.map fun n => (n, false)) ++ (p, false) :: (t, true) :: (c, false)
          :: (B.map fun n => (n, false)) := by
    have := set_append_add (A.map fun n => (n, false))
      ((p, false) :: (t, false) :: (c, false) :: (B.map fun n => (n, false))) 1 (t, true)
    rw [List.length_map] at this
    rw [this]
    rfl
  rw [hs1]
  have := set_append_add (A.map fun n => (n, false))
    ((p, false) :: (t, true) :: (c, false) :: (B.map fun n => (n, false))) 2
    (⟨c.id, p.id :: rs⟩, false)
  rw [List.length_map] at this
  have hidx : A.length + 1 + 1 = A.length + 2 := rfl
  rw [hidx, this]
  rfl


/-- C2 (amended): pruning a node that occurs exactly once, at an
interior position (it has both an immediate predecessor and an
immediate successor in document order, and the successor has a source
entry), removes that node, re-links the successor's first source
`refid` to the predecessor's id, and leaves every other node — and
every other source reference — unchanged.  The original universally
quantified claim fails when the pruned node is last (the
`all_nodes[index + 1]` lookup raises `IndexError`), and the relinking
targets are positional neighbours, which coincide with
producer/consumer in the linear template graph. -/
theorem revise_graph_xml_interior (A : List Node) (p t c : Node) (B : List Node)
    (r : String) (rs : List String)
    (hA : ∀ n ∈ A, n.id ≠ t.id) (hp : p.id ≠ t.id) (hc : c.id ≠ t.id)
    (hB : ∀ n ∈ B, n.id ≠ t.id) (hsrc : c.sources = r :: rs) :
    revise_graph_xml (A ++ p :: t :: c :: B) t.id
      = some (A ++ p :: ⟨c.id, p.id :: rs⟩ :: B) := by
  have hg : (A ++ p :: t :: c :: B).map (fun n => (n, false))
      = (A.map fun n => (n, false)) ++ (p, false) :: (t, false) :: (c, false)
          :: (B.map fun n => (n, false)) := by
    simp
  have hlen : (A ++ p :: t :: c :: B).length = (A.length + 1) + (B.length + 2) := by
    simp only [List.length_append, List.length_cons]
    omega
  unfold revise_graph_xml
  rw [hg, hlen, reviseFrom_add]
  have p1 : reviseFrom t.id (A.length + 1) 0
      ((A.map fun n => (n, false)) ++ (p, false) :: (t, false) :: (c, false)
        :: (B.map fun n => (n, false))) = some ((A.map fun n => (n, false))
          ++ (p, false) :: (t, false) :: (c, false) :: (B.map fun n => (n, false))) := by
    have hpre : ∀ pr ∈ (A.map fun n => (n, false)) ++ [(p, false)], pr.1.id ≠ t.id := by
      intro pr hpr
      rcases List.mem_append.mp hpr with hin | hin
      · obtain ⟨n', hn', heq⟩ := List.mem_map.mp hin
        rw [← heq]
        exact hA n' hn'
      · rw [List.mem_singleton.mp hin]
        exact hp
    have := reviseFrom_skip_prefix t.id ((A.map fun n => (n, false)) ++ [(p, false)])
      ((t, false) :: (c, false) :: (B.map fun n => (n, false))) hpre
    simpa using this
  rw [p1]
  have p2 : reviseFrom t.id (B.length + 2) (0 + (A.length + 1))
      ((A.map fun n => (n, false)) ++ (p, false) :: (t, false) :: (c, false)
        :: (B.map fun n => (n, false)))
      = some ((A.map fun n => (n, false)) ++ (p, false) :: (t, true)
          :: (⟨c.id, p.id :: rs⟩, false) :: (B.map fun n => (n, false))) := by
    rw [Nat.zero_add]
    rw [show B.length + 2 = (B.length + 1) + 1 from rfl]
    rw [reviseFrom_succ t.id (B.length + 1) (A.length + 1) _ _
      (reviseStep_mid A p t c B r rs hsrc)]
    have hsuf : ∀ pr ∈ ((⟨c.id, p.id :: rs⟩ : Node), false)
        :: (B.map fun n => (n, false)), pr.1.id ≠ t.id := by
      intro pr hpr
      rcases List.mem_cons.mp hpr with hin | hin
      · rw [hin]; exact hc
      · obtain ⟨n', hn', heq⟩ := List.mem_map.mp hin
        rw [← heq]
        exact hB n' hn'
    have hrun := reviseFrom_skip_suffix t.id (B.length + 1)
      ((A.map fun n => (n, false)) ++ [(p, false), (t, true)])
      (((⟨c.id, p.id :: rs⟩ : Node), false) :: (B.map fun n => (n, false))) hsuf
    rw [show A.length + 1 + 1 = A.length + 2 from rfl]
    simpa using hrun
  show (match reviseFrom t.id (B.length + 2) (0 + (A.length + 1))
      ((A.map fun n => (n, false)) ++ (p, false) :: (t, false) :: (c, false)
        :: (B.map fun n => (n, false))) with
    | none => none
    | some st => some ((st.filter fun pr => !pr.2).map Prod.fst))
      = some (A ++ p :: ⟨c.id, p.id :: rs⟩ :: B)
  rw [p2]
  show some ((((A.map fun n => (n, false)) ++ (p, false) :: (t, true)
      :: (⟨c.id, p.id :: rs⟩, false) :: (B.map fun n => (n, false))).filter
        fun pr => !pr.2).map Prod.fst) = some (A ++ p :: ⟨c.id, p.id :: rs⟩ :: B)
  congr 1
  rw [List.filter_append, List.map_append, filter_flags, map_fst_flags]
  congr 1
  simp [filter_flags, List.map_map]
  rw [show (Prod.fst ∘ fun n : Node => (n, false)) = id from rfl, List.map_id]




/-- C2 counterexample: pruning the last node of a two-node graph — a
node id present in the graph — crashes with `IndexError` (modelled
`none`) instead of removing the node and re-linking. -/
theorem revise_graph_xml_last_counterexample :
    revise_graph_xml [⟨"Read", []⟩, ⟨"Terrain-Correction", ["Read"]⟩] "Terrain-Correction"
      = none := by decide

/-- C2 witness: pruning the interior `Speckle-Filter` node of a
three-node chain relinks `Write` to `Read`. -/
theorem revise_graph_xml_interior_witness :
    revise_graph_xml [⟨"Read", []⟩, ⟨"Speckle-Filter", ["Read"]⟩,
        ⟨"Write", ["Speckle-Filter"]⟩] "Speckle-Filter"
      = some [⟨"Read", []⟩, ⟨"Write", ["Read"]⟩] := by
  have h := revise_graph_xml_interior [] ⟨"Read", []⟩ ⟨"Speckle-Filter", ["Read"]⟩
    ⟨"Write", ["Speckle-Filter"]⟩ [] "Speckle-Filter" [] (by simp) (by decide) (by decide)
    (by simp) rfl
  exact h

/-- C6 witness: pruning a missing id from a two-node graph returns the
graph unchanged. -/
theorem revise_graph_xml_missing_witness :
    revise_graph_xml [⟨"Read", []⟩, ⟨"Write", ["Read"]⟩] "Nope"
      = some [⟨"Read", []⟩, ⟨"Write", ["Read"]⟩] :=
  revise_graph_xml_missing [⟨"Read", []⟩, ⟨"Write", ["Read"]⟩] "Nope" (by decide)

/-- C6 counterexample: pruning with the absent id `Land-Sea-Mask`
succeeds and returns the unchanged graph, whereas the claim demands a
`NodeNotFoundError` failure. -/
theorem revise_graph_xml_no_error_counterexample :
    revise_graph_xml [⟨"Read", []⟩] "Land-Sea-Mask" = some [⟨"Read", []⟩] := by decide


/-- The engine loop up to the first non-zero `os.system` return: every
earlier polarisation is invoked cleanly, the failing one is invoked
last, and the run ends with its raw status. -/
theorem runPols_fatal (eng : Engine) (clip : Bool) (l1 : List String) (p : String)
    (l2 : List String) (h0 : ∀ q ∈ l1, eng.run q = 0) (hp : eng.run p ≠ 0) :
    runPols eng clip (l1 ++ p :: l2) = (l1 ++ [p], .error (eng.run p)) := by
  induction l1 with
  | nil => simp [runPols, hp]
  | cons q qs ih =>
    have hq : eng.run q = 0 := h0 q (by simp)
    have ih' := ih fun q' hq' => h0 q' (by simp [hq'])
    simp [runPols, hq, ih']

/-- `process_snap` on a request whose prefix succeeds and whose next
polarisation gets a non-zero engine status: it invokes exactly that
prefix plus the failing polarisation and exits with the engine's
status. -/
theorem process_snap_fatal (eng : Engine) (clip : Bool) (l1 : List String) (p : String)
    (l2 : List String)
    (hval : validate_polarisations (l1 ++ p :: l2) eng.avail = true)
    (h0 : ∀ q ∈ l1, eng.run q = 0) (hp : eng.run p ≠ 0) :
    process_snap eng clip (l1 ++ p :: l2)
      = (l1 ++ [p], .error (.systemExit (eng.run p))) := by
  unfold process_snap
  rw [if_pos hval, runPols_fatal eng clip l1 p l2 h0 hp]

/-- C5 (confirmed): a non-zero engine exit status is fatal for the
whole run.  For any feature whose requested polarisations split as
`l1 ++ p :: l2` with `l1` succeeding and `p` returning a non-zero
status, `process` terminates at once with `sys.exit` carrying that very
status: the invocation log shows engine runs for `l1 ++ [p]` only — no
remaining polarisation (`l2`) and no remaining feature (`post`) is
processed or retried. -/
theorem process_snap_nonzero_exit_fatal (cfg : Config) (env : Feature → Engine)
    (f : Feature) (post : List Feature) (l1 : List String) (p : String) (l2 : List String)
    (hcfg : assert_input_params cfg = .ok ())
    (hpols : effectivePolarisations cfg.polarisations = l1 ++ p :: l2)
    (hdem : (extract_relevant_coordinate f.bbox).isSome = true)
    (hval : validate_polarisations (l1 ++ p :: l2) (env f).avail = true)
    (h0 : ∀ q ∈ l1, (env f).run q = 0) (hp : (env f).run p ≠ 0) :
    process cfg env (f :: post)
      = ([(f.dataPath, l1 ++ [p])], .error (.systemExit ((env f).run p))) := by
  obtain ⟨rc, hrc⟩ := Option.isSome_iff_exists.mp hdem
  have had : assert_dem f.bbox Dem.srtm
      = some (if ¬((-56 : ℚ) < rc ∧ rc < 60) then Dem.aster else Dem.srtm) := by
    unfold assert_dem
    simp only [hrc]
    split_ifs <;> rfl
  have hsnap := process_snap_fatal (env f) cfg.clip_to_aoi l1 p l2 hval h0 hp
  simp only [process, hcfg, hpols, processFeatures, had, hsnap]


/-- The feature loop, absent crashes and fatal exits, returns exactly
the output features of the inputs whose `process_snap` produced a
non-empty tile list, in order. -/
theorem processFeatures_ok (clip : Bool) (env : Feature → Engine) (pols : List String) :
    ∀ (fs : List Feature) (dem : Dem),
      (∀ f ∈ fs, (extract_relevant_coordinate f.bbox).isSome = true) →
      (∀ f ∈ fs, isSystemExit (process_snap (env f) clip pols).2 = false) →
      (processFeatures clip env pols fs dem).2
        = .ok ((fs.filter fun f => featHasOutput (env f) clip pols).map outFeature) := by
  intro fs
  induction fs with
  | nil => intro dem _ _; rfl
  | cons f fs ih =>
    intro dem hdem hexit
    obtain ⟨rc, hrc⟩ := Option.isSome_iff_exists.mp (hdem f (by simp))
    have had : assert_dem f.bbox dem
        = some (if ¬((-56 : ℚ) < rc ∧ rc < 60) then Dem.aster else dem) := by
      unfold assert_dem
      simp only [hrc]
      split_ifs <;> rfl
    have ih' := fun d => ih d (fun g hg => hdem g (by simp [hg]))
      (fun g hg => hexit g (by simp [hg]))
    rcases hsnap : (process_snap (env f) clip pols).2 with e | outs
    · rcases e with _ | c
      · simp [processFeatures, had, hsnap, featHasOutput, ih']
      · have hfalse := hexit f (by simp)
        rw [hsnap] at hfalse
        simp [isSystemExit] at hfalse
    · rcases outs with _ | ⟨o, os⟩
      · simp [processFeatures, had, hsnap, featHasOutput, ih']
      · simp [processFeatures, had, hsnap, featHasOutput, ih']


/-- C8 (confirmed): provided no feature crashes DEM extraction and no
engine run is fatal, `process` raises `NO_OUTPUT_ERROR` if and only if
no feature produced output — features hitting `WrongPolarizationError`
or producing zero tiles are skipped without aborting the collection —
and otherwise it returns exactly the output features of the successful
inputs. -/
theorem process_noOutput_iff (cfg : Config) (env : Feature → Engine) (fc : List Feature)
    (hcfg : assert_input_params cfg = .ok ())
    (hdem : ∀ f ∈ fc, (extract_relevant_coordinate f.bbox).isSome = true)
    (hexit : ∀ f ∈ fc, isSystemExit (process_snap (env f) cfg.clip_to_aoi
        (effectivePolarisations cfg.polarisations)).2 = false) :
    ((process cfg env fc).2 = .error RunError.noOutput ↔
        fc.filter (fun f => featHasOutput (env f) cfg.clip_to_aoi
          (effectivePolarisations cfg.polarisations)) = []) ∧
      (fc.filter (fun f => featHasOutput (env f) cfg.clip_to_aoi
          (effectivePolarisations cfg.polarisations)) ≠ [] →
        (process cfg env fc).2
          = .ok ((fc.filter fun f => featHasOutput (env f) cfg.clip_to_aoi
              (effectivePolarisations cfg.polarisations)).map outFeature)) := by
  have haux := processFeatures_ok cfg.clip_to_aoi env
    (effectivePolarisations cfg.polarisations) fc Dem.srtm hdem hexit
  rcases hfil : fc.filter (fun f => featHasOutput (env f) cfg.clip_to_aoi
      (effectivePolarisations cfg.polarisations)) with _ | ⟨x, xs⟩
  · rw [hfil] at haux
    constructor
    · simp [process, hcfg, haux]
    · intro hne
      exact absurd rfl hne
  · rw [hfil] at haux
    constructor
    · simp [process, hcfg, haux, update_extents]
    · intro _
      simp [process, hcfg, haux, update_extents]

/-- C10 (confirmed): a falsy `polarisations` parameter (`null` or the
empty list) is replaced by the default `["VV"]` at the top of
`process`, before any feature is touched: the effective request is
`["VV"]` and the whole run behaves identically to one configured with
`["VV"]`. -/
theorem process_defaults_empty_polarisations (cfg : Config) (env : Feature → Engine)
    (fc : List Feature) (h : cfg.polarisations = none ∨ cfg.polarisations = some []) :
    effectivePolarisations cfg.polarisations = ["VV"] ∧
      process cfg env fc = process (setPolarisations cfg (some ["VV"])) env fc := by
  obtain ⟨clip, mask, pols, bb, ct, it⟩ := cfg
  rcases h with h | h <;> cases h <;> exact ⟨rfl, rfl⟩


/-- C5 witness: with `VV` succeeding and `VH` exiting with status 5,
the run aborts with code 5 after invoking only `VV` and `VH` of the
first feature; the second feature is never touched. -/
theorem process_snap_nonzero_exit_fatal_witness :
    process cfgVVVH (fun _ => engFail) [featA, featB]
      = ([("sceneA", ["VV", "VH"])], .error (.systemExit 5)) := by
  have h := process_snap_nonzero_exit_fatal cfgVVVH (fun _ => engFail) featA [featB]
    ["VV"] "VH" [] (by decide) (by decide) (by decide) (by decide) (by decide) (by decide)
  exact h.trans (by decide)

/-- C8 witness: of two features, the one missing the requested
polarisation is skipped and the run returns exactly the successful
feature's output. -/
theorem process_noOutput_iff_witness :
    (process cfgVV envAB [featA, featB]).2
      = .ok [(⟨[0, 10, 5, 20], "sceneB.tif"⟩ : Feature)] := by
  have h := process_noOutput_iff cfgVV envAB [featA, featB] (by decide) (by decide) (by decide)
  exact (h.2 (by decide)).trans (by decide)

/-- C10 witness: the `null`-polarisations configuration behaves like
the `["VV"]` one. -/
theorem process_defaults_empty_polarisations_witness :
    effectivePolarisations cfgNullPols.polarisations = ["VV"] ∧
      process cfgNullPols envAB []
        = process (setPolarisations cfgNullPols (some ["VV"])) envAB [] :=
  process_defaults_empty_polarisations cfgNullPols envAB [] (Or.inl rfl)


end SnapPolarimetry
